import Mathlib

/-!
Shallow embedding of the GitHub-issues CLI front end (`src/utils/gh_issues.py`).

The external world is modelled by an `Env`: a file system (path to optional
contents, `none` meaning the open raises a file-not-found condition), the
standard-input contents, and the backend `gh` process as a pure function from
an argument list to an exit status with captured output streams.  Each CLI
command becomes a pure Lean function from its options and an `Env` to a
`CmdOutcome`: the process exit status, the ordered trace of every `run_gh`
invocation (the argument lists passed to the backend), and the ordered list
of rendered console outputs.  Python truthiness of optional strings
(`None` and `""` are falsy) is modelled by `truthy`.
-/

-- ============================================================================
-- ENUMS (gh_issues.py, ENUMS section)
-- ============================================================================

inductive IssueState where
  | open_
  | closed
  | all
deriving DecidableEq

inductive IssueType where
  | bug
  | feature
  | task
  | phase
  | custom
deriving DecidableEq

/-- The string value of an `IssueType` member (its `.value` in the source). -/
def IssueType.val : IssueType → String
  | .bug => "bug"
  | .feature => "feature"
  | .task => "task"
  | .phase => "phase"
  | .custom => "custom"

inductive OutputFormat where
  | human
  | json
deriving DecidableEq

-- ============================================================================
-- TEMPLATES (gh_issues.py, TEMPLATES dict)
-- ============================================================================

/-- One entry of the `TEMPLATES` dict.  `titleTag` models the `title_prefix`
key of the source (renamed only because of lexical restrictions on names). -/
structure Template where
  titleTag : String
  labels : List String
  bodySkeleton : String
deriving DecidableEq

/-- The `TEMPLATES` dict: `TEMPLATES.get(key)`.  Keys absent from the dict
(`"phase"`, `"custom"`, anything else) give `none`. -/
def TEMPLATES : String → Option Template
  | "bug" => some
      { titleTag := "[Bug]"
        labels := ["bug"]
        bodySkeleton := "## Priority\n{priority}\n\n## Description\n{description}\n\n## Steps to Reproduce\n{steps}\n\n## Current Behavior\n{current_behavior}\n\n## Expected Behavior\n{expected_behavior}\n" }
  | "feature" => some
      { titleTag := "[Feature]"
        labels := ["enhancement"]
        bodySkeleton := "## Priority\n{priority}\n\n## Description\n{description}\n\n## Implementation\n{implementation}\n\n## Benefits\n{benefits}\n" }
  | "task" => some
      { titleTag := "[Task]"
        labels := ["task"]
        bodySkeleton := "## Priority\n{priority}\n\n## Description\n{description}\n\n## Implementation Steps\n{implementation}\n\n## Acceptance Criteria\n{criteria}\n" }
  | _ => none

-- ============================================================================
-- ENVIRONMENT AND OUTCOME
-- ============================================================================

/-- Result of one backend (`gh`) invocation: `subprocess.CompletedProcess`
restricted to the fields the tool reads. -/
structure GhResult where
  returncode : Int
  stdout : String
  stderr : String
deriving DecidableEq

/-- The external world a single command invocation runs against. -/
structure Env where
  fs : String → Option String
  stdin : String
  backend : List String → GhResult

/-- Python truthiness of an optional string: `None` and `""` are falsy. -/
def truthy : Option String → Bool
  | none => false
  | some s => s ≠ ""

/-- The underlying string of an optional string (`""` for `None`);
used only where the source has already checked truthiness or applies
`body or ""`. -/
def optVal : Option String → String
  | none => ""
  | some s => s

-- ============================================================================
-- OUTPUT RENDERING (gh_issues.py, `output` helper)
-- ============================================================================

/-- A scalar value stored in one of the dicts the tool prints. -/
inductive Val where
  | s (v : String)
  | i (v : Int)
  | b (v : Bool)
deriving DecidableEq

/-- The payload handed to `output`: a dict of scalars or a list of dicts. -/
inductive Data where
  | obj (fields : List (String × Val))
  | arr (rows : List (List (String × Val)))
deriving DecidableEq

/-- One rendered console artifact.  `doc` is the single structured document
printed by `json.dumps`; `notice` is a raw `rprint` text line; `table` is a
rich table; `kvLines` is the per-key rendering of a dict in human mode. -/
inductive Rendered where
  | doc (d : Data)
  | notice (s : String)
  | table (headers : List String) (rows : List (List String))
  | kvLines (fields : List (String × Val))
deriving DecidableEq

/-- Whether a rendered artifact is the structured (machine-readable) document. -/
def isDoc : Rendered → Bool
  | .doc _ => true
  | _ => false

/-- Whether a rendered artifact is a table. -/
def isTable : Rendered → Bool
  | .table _ _ => true
  | _ => false

-- Kernel-reducible string utilities mirroring the Python methods the
-- source uses (`str.strip`, single-character `str.split` and
-- `str.replace`); the library versions are not suitable for evaluation
-- inside proofs.

/-- Python `str.strip()`: drop leading and trailing whitespace. -/
def pyStrip (s : String) : String :=
  ⟨((s.data.dropWhile Char.isWhitespace).reverse.dropWhile
      Char.isWhitespace).reverse⟩

/-- Python `str.split(sep)` for a one-character separator, on a char list. -/
def splitCharGo (sep : Char) : List Char → List String
  | [] => [""]
  | c :: cs =>
      if c = sep then "" :: splitCharGo sep cs
      else
        match splitCharGo sep cs with
        | [] => [⟨[c]⟩]
        | h :: t => ⟨c :: h.data⟩ :: t

/-- Python `str.split(sep)` for a one-character separator. -/
def pySplitChar (sep : Char) (s : String) : List String :=
  splitCharGo sep s.data

/-- Python `str.replace(old, new)` for one-character `old` and `new`. -/
def pyReplaceChar (old new : Char) (s : String) : String :=
  ⟨s.data.map fun c => if c = old then new else c⟩

/-- Python `str(v)` on the scalar values stored in the dicts. -/
def Val.toStr : Val → String
  | .s v => v
  | .i v => toString v
  | .b v => if v then "True" else "False"

/-- Python `str.title()` on ASCII text: a cased character following an
uncased one is uppercased, every other cased character is lowercased. -/
def pyTitleGo : Bool → List Char → List Char
  | _, [] => []
  | prevCased, c :: cs =>
      (if c.isAlpha ∧ ¬ prevCased then c.toUpper else c.toLower)
        :: pyTitleGo c.isAlpha cs

/-- Python `str.title()`. -/
def pyTitle (s : String) : String :=
  ⟨pyTitleGo false s.data⟩

/-- Column header derived from a dict key:
`key.replace("_", " ").title()`. -/
def headerOfKey (k : String) : String :=
  pyTitle (pyReplaceChar (Char.ofNat 95) (Char.ofNat 32) k)

/-- Human-mode rendering of the payload (the non-json branch of `output`,
after the optional success message).  An empty list gives the fixed
"No results." notice; a non-empty list gives a table whose headers come
from the first element; a dict gives key-value lines. -/
def renderHumanData : Data → List Rendered
  | .arr [] => [.notice "No results."]
  | .arr (first :: rest) =>
      [.table (first.map fun p => headerOfKey p.1)
        ((first :: rest).map fun row => row.map fun p => p.2.toStr)]
  | .obj fields => [.kvLines fields]

/-- The `output` helper: in json mode, one structured document; in human
mode, an optional success message followed by the human rendering. -/
def output (data : Data) (fmt : OutputFormat) (msg : String) : List Rendered :=
  match fmt with
  | .json => [.doc data]
  | .human =>
      (if msg ≠ "" then [Rendered.notice ("✓ " ++ msg)] else [])
        ++ renderHumanData data

-- ============================================================================
-- AUTH GATE (gh_issues.py, `ensure_auth`)
-- ============================================================================

/-- The argument list of the authentication probe. -/
def authCall : List String := ["auth", "status"]

/-- The raw text printed when the probe fails (rich markup elided). -/
def authFailMsg : String := "Error: gh not authenticated. Run: gh auth login"

-- ============================================================================
-- COMMAND OUTCOME
-- ============================================================================

/-- The observable outcome of one command invocation: process exit status,
the ordered argument lists of every backend invocation, and the ordered
console renderings. -/
structure CmdOutcome where
  exitCode : Nat
  calls : List (List String)
  outputs : List Rendered
deriving DecidableEq

-- ============================================================================
-- BODY RESOLUTION (the "Determine body content" blocks of each command)
-- ============================================================================

/-- Body resolution of `create`: `final_body = body or ""`, then an
existing `--body-file` overrides it; a missing file is a file-not-found
failure carrying the error message. -/
def createResolveBody (env : Env) (body bf : Option String) :
    Except String String :=
  if truthy bf then
    match env.fs (optVal bf) with
    | some contents => .ok contents
    | none => .error ("File not found: " ++ optVal bf)
  else .ok (optVal body)

/-- Body resolution of `comment`: `--stdin` wins outright (the file is then
never opened), else an existing `--body-file` overrides the inline body,
else the inline body (possibly absent) stands. -/
def commentResolveBody (env : Env) (body bf : Option String)
    (bodyStdin : Bool) : Except String (Option String) :=
  if bodyStdin then .ok (some env.stdin)
  else if truthy bf then
    match env.fs (optVal bf) with
    | some contents => .ok (some contents)
    | none => .error ("File not found: " ++ optVal bf)
  else .ok body

/-- Body resolution of `edit`: like `create` but with no `or ""` default,
so an absent body stays absent. -/
def editResolveBody (env : Env) (body bf : Option String) :
    Except String (Option String) :=
  if truthy bf then
    match env.fs (optVal bf) with
    | some contents => .ok (some contents)
    | none => .error ("File not found: " ++ optVal bf)
  else .ok body

/-- The "No body provided" error message of `comment`. -/
def noBodyMsg : String := "No body provided. Use --body, --body-file, or --stdin"

-- ============================================================================
-- CREATE (gh_issues.py, `create`)
-- ============================================================================

/-- `labels.split(",") if labels else []`. -/
def splitLabels : Option String → List String
  | none => []
  | some s => if s = "" then [] else pySplitChar (Char.ofNat 44) s

/-- Python `set(final_labels)` as iterated over when building the label
arguments.  Iteration order of a Python set is unspecified; it is modelled
as first-occurrence order, and every theorem below relies only on
membership, never on the order of distinct labels. -/
def pySet (l : List String) : List String := l.dedup

/-- `url.split("/")[-1] if url else "unknown"`. -/
def lastSegment (url : String) : String :=
  if url = "" then "unknown"
  else ((pySplitChar (Char.ofNat 47) url).getLast?).getD "unknown"

/-- Title and label-list adjustment for `create`: when a type other than
`custom` is given, the template title tag is prepended (then stripped) and
the template labels are appended; a type with no `TEMPLATES` entry
(`phase`) contributes an empty tag and no labels. -/
def applyTemplate (issueType : Option IssueType) (title : String)
    (labels0 : List String) : String × List String :=
  match issueType with
  | some t =>
      if t ≠ IssueType.custom then
        match TEMPLATES t.val with
        | some tmpl => (pyStrip (tmpl.titleTag ++ " " ++ title), labels0 ++ tmpl.labels)
        | none => (pyStrip ("" ++ " " ++ title), labels0)
      else (title, labels0)
  | none => (title, labels0)

/-- The argument list of the backend `issue create` invocation. -/
def createArgs (finalTitle finalBody : String) (finalLabels : List String)
    (assignee : Option String) : List String :=
  ["issue", "create", "--title", finalTitle, "--body", finalBody]
    ++ ((pySet finalLabels).map fun l => ["--label", pyStrip l]).flatten
    ++ (if truthy assignee then ["--assignee", optVal assignee] else [])

/-- The `create` command. -/
def createCmd (env : Env) (title : String) (body bf : Option String)
    (issueType : Option IssueType) (labels assignee : Option String)
    (fmt : OutputFormat) : CmdOutcome :=
  if (env.backend authCall).returncode ≠ 0 then
    ⟨1, [authCall], [.notice authFailMsg]⟩
  else
    match createResolveBody env body bf with
    | .error e => ⟨1, [authCall], output (.obj [("error", .s e)]) fmt ""⟩
    | .ok finalBody =>
        let tl := applyTemplate issueType title (splitLabels labels)
        let args := createArgs tl.1 finalBody tl.2 assignee
        let res := env.backend args
        if res.returncode ≠ 0 then
          ⟨1, [authCall, args],
            output (.obj [("error", .s "Failed to create issue"),
                          ("details", .s (pyStrip res.stderr))]) fmt ""⟩
        else
          let url := pyStrip res.stdout
          let num := lastSegment url
          ⟨0, [authCall, args],
            output (.obj [("success", .b true), ("issue_number", .s num),
                          ("url", .s url)]) fmt ("Created #" ++ num)⟩

-- ============================================================================
-- CLOSE / REOPEN (gh_issues.py, `close`, `reopen`)
-- ============================================================================

/-- The argument list of the optional best-effort comment step. -/
def commentArgsFor (n : Int) (c : String) : List String :=
  ["issue", "comment", toString n, "--body", c]

/-- The argument list of the `issue close` invocation; the reason string is
forwarded verbatim. -/
def closeArgsFor (n : Int) (reason : String) : List String :=
  ["issue", "close", toString n, "--reason", reason]

/-- The argument list of the `issue reopen` invocation. -/
def reopenArgsFor (n : Int) : List String :=
  ["issue", "reopen", toString n]

/-- The `close` command.  A truthy comment is posted first with its result
discarded; the close invocation alone decides the outcome. -/
def closeCmd (env : Env) (n : Int) (comment : Option String)
    (reason : String) (fmt : OutputFormat) : CmdOutcome :=
  if (env.backend authCall).returncode ≠ 0 then
    ⟨1, [authCall], [.notice authFailMsg]⟩
  else
    let commentCalls :=
      if truthy comment then [commentArgsFor n (optVal comment)] else []
    let args := closeArgsFor n reason
    let res := env.backend args
    if res.returncode ≠ 0 then
      ⟨1, [authCall] ++ commentCalls ++ [args],
        output (.obj [("error", .s ("Failed to close #" ++ toString n))]) fmt ""⟩
    else
      ⟨0, [authCall] ++ commentCalls ++ [args],
        output (.obj [("success", .b true), ("issue_number", .i n),
                      ("reason", .s reason)]) fmt ("Closed #" ++ toString n)⟩

/-- The `reopen` command; same comment-first, best-effort structure. -/
def reopenCmd (env : Env) (n : Int) (comment : Option String)
    (fmt : OutputFormat) : CmdOutcome :=
  if (env.backend authCall).returncode ≠ 0 then
    ⟨1, [authCall], [.notice authFailMsg]⟩
  else
    let commentCalls :=
      if truthy comment then [commentArgsFor n (optVal comment)] else []
    let args := reopenArgsFor n
    let res := env.backend args
    if res.returncode ≠ 0 then
      ⟨1, [authCall] ++ commentCalls ++ [args],
        output (.obj [("error", .s ("Failed to reopen #" ++ toString n))]) fmt ""⟩
    else
      ⟨0, [authCall] ++ commentCalls ++ [args],
        output (.obj [("success", .b true), ("issue_number", .i n),
                      ("action", .s "reopened")]) fmt ("Reopened #" ++ toString n)⟩

-- ============================================================================
-- COMMENT (gh_issues.py, `comment`)
-- ============================================================================

/-- The `comment` command. -/
def commentCmd (env : Env) (n : Int) (body bf : Option String)
    (bodyStdin : Bool) (fmt : OutputFormat) : CmdOutcome :=
  if (env.backend authCall).returncode ≠ 0 then
    ⟨1, [authCall], [.notice authFailMsg]⟩
  else
    match commentResolveBody env body bf bodyStdin with
    | .error e => ⟨1, [authCall], output (.obj [("error", .s e)]) fmt ""⟩
    | .ok finalBody =>
        if ¬ truthy finalBody then
          ⟨1, [authCall], output (.obj [("error", .s noBodyMsg)]) fmt ""⟩
        else
          let args := commentArgsFor n (optVal finalBody)
          let res := env.backend args
          if res.returncode ≠ 0 then
            ⟨1, [authCall, args],
              output (.obj [("error", .s ("Failed to comment on #" ++ toString n))]) fmt ""⟩
          else
            ⟨0, [authCall, args],
              output (.obj [("success", .b true), ("issue_number", .i n),
                            ("action", .s "commented")]) fmt
                ("Commented on #" ++ toString n)⟩

-- ============================================================================
-- EDIT (gh_issues.py, `edit`)
-- ============================================================================

/-- The argument list of the `issue edit` invocation: each truthy option
appends its flag and value; a falsy (absent or empty) option is skipped. -/
def editArgs (n : Int) (title finalBody addLabels removeLabels
    addAssignee : Option String) : List String :=
  ["issue", "edit", toString n]
    ++ (if truthy title then ["--title", optVal title] else [])
    ++ (if truthy finalBody then ["--body", optVal finalBody] else [])
    ++ (if truthy addLabels then ["--add-label", optVal addLabels] else [])
    ++ (if truthy removeLabels then ["--remove-label", optVal removeLabels] else [])
    ++ (if truthy addAssignee then ["--add-assignee", optVal addAssignee] else [])

/-- The `edit` command.  When no option contributes an argument
(`len(args) == 3`), the fixed "No changes specified." notice is printed by
`rprint` (bypassing `output`) and the process exits 0 with no `issue edit`
invocation. -/
def editCmd (env : Env) (n : Int) (title body bf addLabels removeLabels
    addAssignee : Option String) (fmt : OutputFormat) : CmdOutcome :=
  if (env.backend authCall).returncode ≠ 0 then
    ⟨1, [authCall], [.notice authFailMsg]⟩
  else
    match editResolveBody env body bf with
    | .error e => ⟨1, [authCall], output (.obj [("error", .s e)]) fmt ""⟩
    | .ok finalBody =>
        let args := editArgs n title finalBody addLabels removeLabels addAssignee
        if args.length = 3 then
          ⟨0, [authCall], [.notice "No changes specified."]⟩
        else
          let res := env.backend args
          if res.returncode ≠ 0 then
            ⟨1, [authCall, args],
              output (.obj [("error", .s ("Failed to edit #" ++ toString n))]) fmt ""⟩
          else
            ⟨0, [authCall, args],
              output (.obj [("success", .b true), ("issue_number", .i n),
                            ("action", .s "edited")]) fmt ("Edited #" ++ toString n)⟩

-- ============================================================================
-- RESPONSE-SHAPE PREDICATES (for the output-uniformity invariant)
-- ============================================================================

/-- The key set of a dict payload (empty for a list payload). -/
def fieldNames : Data → List String
  | .obj fields => fields.map Prod.fst
  | .arr _ => []

/-- A payload that mixes an error field with a success field. -/
def mixedData (d : Data) : Bool :=
  (fieldNames d).contains "error" && (fieldNames d).contains "success"

/-- A rendered artifact that mixes an error field with a success field. -/
def mixedRecord : Rendered → Bool
  | .doc d => mixedData d
  | .kvLines fields =>
      (fields.map Prod.fst).contains "error"
        && (fields.map Prod.fst).contains "success"
  | _ => false

/-- The invariant claimed of a response: no artifact mixes error and
success fields, and the selected format is respected — json mode emits
exactly one structured document, human mode emits none. -/
def uniform (fmt : OutputFormat) (outs : List Rendered) : Prop :=
  (∀ r ∈ outs, mixedRecord r = false) ∧
  match fmt with
  | .json => ∃ d, outs = [Rendered.doc d]
  | .human => ∀ r ∈ outs, isDoc r = false

/-- What actually holds of a command outcome: the response is uniform in
the selected format, except for the two paths that print a fixed
human-readable notice regardless of the format (the authentication
failure and the edit no-changes notice). -/
def outputsOk (fmt : OutputFormat) (o : CmdOutcome) : Prop :=
  uniform fmt o.outputs
    ∨ o.outputs = [Rendered.notice authFailMsg]
    ∨ o.outputs = [Rendered.notice "No changes specified."]

-- ============================================================================
-- CONCRETE ENVIRONMENTS (used to instantiate the theorems)
-- ============================================================================

/-- A benign world: no files, empty standard input, a backend that
accepts every invocation with empty output. -/
def env0 : Env :=
  { fs := fun _ => none
    stdin := ""
    backend := fun _ => ⟨0, "", ""⟩ }

/-- A world with two files, non-empty standard input, and an accepting
backend. -/
def envW : Env :=
  { fs := fun p =>
      if p = "body.md" then some "file content"
      else if p = "empty.md" then some ""
      else none
    stdin := "stdin content"
    backend := fun _ => ⟨0, "", ""⟩ }

/-- A world whose backend rejects exactly the comment invocations and
accepts everything else. -/
def envCF : Env :=
  { fs := fun _ => none
    stdin := ""
    backend := fun args =>
      if args.take 2 = ["issue", "comment"] then ⟨1, "", "comment failed"⟩
      else ⟨0, "", ""⟩ }

-- ============================================================================
-- HELPER THEOREMS
-- ============================================================================

/-- Any response produced through the `output` helper whose payload does
not mix error and success fields is uniform in the selected format. -/
theorem output_uniform (d : Data) (fmt : OutputFormat) (msg : String)
    (hd : mixedData d = false) : uniform fmt (output d fmt msg) := by
  constructor
  · intro r hr
    cases fmt with
    | json =>
        simp only [output, List.mem_singleton] at hr
        subst hr
        simpa [mixedRecord] using hd
    | human =>
        simp only [output, List.mem_append] at hr
        rcases hr with hr | hr
        · split at hr
          · simp only [List.mem_singleton] at hr
            subst hr
            rfl
          · simp at hr
        · cases d with
          | obj fields =>
              simp only [renderHumanData, List.mem_singleton] at hr
              subst hr
              simpa [mixedRecord, mixedData, fieldNames] using hd
          | arr rows =>
              cases rows with
              | nil =>
                  simp only [renderHumanData, List.mem_singleton] at hr
                  subst hr
                  rfl
              | cons first rest =>
                  simp only [renderHumanData, List.mem_singleton] at hr
                  subst hr
                  rfl
  · cases fmt with
    | json => exact ⟨d, rfl⟩
    | human =>
        intro r hr
        simp only [output, List.mem_append] at hr
        rcases hr with hr | hr
        · split at hr
          · simp only [List.mem_singleton] at hr
            subst hr
            rfl
          · simp at hr
        · cases d with
          | obj fields =>
              simp only [renderHumanData, List.mem_singleton] at hr
              subst hr
              rfl
          | arr rows =>
              cases rows with
              | nil =>
                  simp only [renderHumanData, List.mem_singleton] at hr
                  subst hr
                  rfl
              | cons first rest =>
                  simp only [renderHumanData, List.mem_singleton] at hr
                  subst hr
                  rfl

/-- A file-not-found message is never the no-body message, whatever the
path was. -/
theorem fileNotFound_ne_noBody (p : String) :
    "File not found: " ++ p ≠ noBodyMsg := by
  intro h
  have h2 := congrArg String.data h
  rw [String.data_append] at h2
  simp [noBodyMsg] at h2

theorem createCmd_outputsOk (env : Env) (title : String)
    (body bf labels assignee : Option String) (issueType : Option IssueType)
    (fmt : OutputFormat) :
    outputsOk fmt (createCmd env title body bf issueType labels assignee fmt) := by
  unfold createCmd
  split
  · right; left; rfl
  · split
    · left; exact output_uniform _ _ _ rfl
    · dsimp only
      split
      · left; exact output_uniform _ _ _ rfl
      · left; exact output_uniform _ _ _ rfl

theorem closeCmd_outputsOk (env : Env) (n : Int) (comment : Option String)
    (reason : String) (fmt : OutputFormat) :
    outputsOk fmt (closeCmd env n comment reason fmt) := by
  unfold closeCmd
  split
  · right; left; rfl
  · dsimp only
    split
    · left; exact output_uniform _ _ _ rfl
    · left; exact output_uniform _ _ _ rfl

theorem reopenCmd_outputsOk (env : Env) (n : Int) (comment : Option String)
    (fmt : OutputFormat) :
    outputsOk fmt (reopenCmd env n comment fmt) := by
  unfold reopenCmd
  split
  · right; left; rfl
  · dsimp only
    split
    · left; exact output_uniform _ _ _ rfl
    · left; exact output_uniform _ _ _ rfl

theorem commentCmd_outputsOk (env : Env) (n : Int) (body bf : Option String)
    (bs : Bool) (fmt : OutputFormat) :
    outputsOk fmt (commentCmd env n body bf bs fmt) := by
  unfold commentCmd
  split
  · right; left; rfl
  · split
    · left; exact output_uniform _ _ _ rfl
    · split
      · left; exact output_uniform _ _ _ rfl
      · dsimp only
        split
        · left; exact output_uniform _ _ _ rfl
        · left; exact output_uniform _ _ _ rfl

theorem editCmd_outputsOk (env : Env) (n : Int)
    (title body bf addLabels removeLabels addAssignee : Option String)
    (fmt : OutputFormat) :
    outputsOk fmt (editCmd env n title body bf addLabels removeLabels addAssignee fmt) := by
  unfold editCmd
  split
  · right; left; rfl
  · split
    · left; exact output_uniform _ _ _ rfl
    · dsimp only
      split
      · right; right; rfl
      · split
        · left; exact output_uniform _ _ _ rfl
        · left; exact output_uniform _ _ _ rfl

-- ============================================================================
-- CLAIMS
-- ============================================================================

/-- C1: for the comment command, when inline body, body file and the stdin
flag are all supplied, the resolved body is the stdin content — never the
file or inline content — and the body sent to the backend is the stdin
content; in general the resolution priority is stdin over file over
inline text (the second conjunct shows file content overriding the inline
body when stdin is not requested). -/
theorem comment_body_priority_stdin_file_inline (env : Env) (n : Int)
    (body : Option String) (p : String) (fmt : OutputFormat)
    (hp : p ≠ "")
    (ha : (env.backend authCall).returncode = 0) :
    commentResolveBody env body (some p) true = .ok (some env.stdin)
    ∧ (∀ c, env.fs p = some c →
        commentResolveBody env body (some p) false = .ok (some c))
    ∧ (env.stdin ≠ "" →
        (commentCmd env n body (some p) true fmt).calls
          = [authCall, commentArgsFor n env.stdin]) := by
  refine ⟨rfl, ?_, ?_⟩
  · intro c hc
    simp [commentResolveBody, truthy, hp, optVal, hc]
  · intro hs
    simp only [commentCmd, ha]
    simp only [commentResolveBody]
    simp [truthy, hs, optVal]
    split <;> rfl

/-- C1 witness: in a world whose stdin reads "stdin content" and whose
file body.md holds "file content", an inline body plus the file plus the
stdin flag resolve to the stdin content, and the backend comment call
carries it. -/
theorem comment_body_priority_stdin_file_inline_witness :
    commentResolveBody envW (some "inline") (some "body.md") true
      = .ok (some "stdin content")
    ∧ commentResolveBody envW (some "inline") (some "body.md") false
      = .ok (some "file content")
    ∧ (commentCmd envW 7 (some "inline") (some "body.md") true OutputFormat.json).calls
      = [authCall, commentArgsFor 7 "stdin content"] := by
  obtain ⟨h1, h2, h3⟩ :=
    comment_body_priority_stdin_file_inline envW 7 (some "inline") "body.md"
      OutputFormat.json (by decide) (by decide)
  exact ⟨h1, h2 "file content" (by decide), h3 (by decide)⟩

/-- C2: for create, comment and edit, a body file that does not resolve
to a readable file makes the command exit 1 with a file-not-found error,
with no backend issue invocation (the trace holds only the auth probe)
and no fallback to the inline body; the message differs from the no-body
message. -/
theorem body_file_missing_fails_before_backend (env : Env) (n : Int)
    (title : String) (titleOpt body labels assignee addL remL addA : Option String)
    (issueType : Option IssueType) (p : String) (fmt : OutputFormat)
    (hp : p ≠ "") (hmiss : env.fs p = none)
    (ha : (env.backend authCall).returncode = 0) :
    createCmd env title body (some p) issueType labels assignee fmt
      = ⟨1, [authCall],
          output (.obj [("error", .s ("File not found: " ++ p))]) fmt ""⟩
    ∧ commentCmd env n body (some p) false fmt
      = ⟨1, [authCall],
          output (.obj [("error", .s ("File not found: " ++ p))]) fmt ""⟩
    ∧ editCmd env n titleOpt body (some p) addL remL addA fmt
      = ⟨1, [authCall],
          output (.obj [("error", .s ("File not found: " ++ p))]) fmt ""⟩
    ∧ ("File not found: " ++ p) ≠ noBodyMsg := by
  refine ⟨?_, ?_, ?_, fileNotFound_ne_noBody p⟩
  · simp [createCmd, ha, createResolveBody, truthy, hp, optVal, hmiss]
  · simp [commentCmd, ha, commentResolveBody, truthy, hp, optVal, hmiss]
  · simp [editCmd, ha, editResolveBody, truthy, hp, optVal, hmiss]

/-- C2 witness: with no file nope.md present, all three body-bearing
commands fail with the file-not-found record and exit 1, calling only the
auth probe, even though an inline body was supplied. -/
theorem body_file_missing_fails_before_backend_witness :
    createCmd env0 "t" (some "inline") (some "nope.md") none none none OutputFormat.json
      = ⟨1, [authCall],
          [Rendered.doc (.obj [("error", .s "File not found: nope.md")])]⟩
    ∧ commentCmd env0 9 (some "inline") (some "nope.md") false OutputFormat.json
      = ⟨1, [authCall],
          [Rendered.doc (.obj [("error", .s "File not found: nope.md")])]⟩
    ∧ editCmd env0 9 none (some "inline") (some "nope.md") none none none OutputFormat.json
      = ⟨1, [authCall],
          [Rendered.doc (.obj [("error", .s "File not found: nope.md")])]⟩
    ∧ ("File not found: " ++ "nope.md") ≠ noBodyMsg := by
  obtain ⟨h1, h2, h3, h4⟩ :=
    body_file_missing_fails_before_backend env0 9 "t" none (some "inline")
      none none none none none none "nope.md" OutputFormat.json
      (by decide) (by decide) (by decide)
  exact ⟨h1, h2, h3, h4⟩

/-- C3: every create invocation with type bug sends the backend the title
"[Bug] " prepended to the original title and stripped, and a label set
that contains "bug" whatever labels the caller supplied (including none). -/
theorem create_bug_template_title_labels (env : Env) (title fb : String)
    (body bf labels assignee : Option String) (fmt : OutputFormat)
    (ha : (env.backend authCall).returncode = 0)
    (hb : createResolveBody env body bf = .ok fb) :
    (createCmd env title body bf (some IssueType.bug) labels assignee fmt).calls
      = [authCall,
         createArgs (pyStrip ("[Bug] " ++ title)) fb
           (splitLabels labels ++ ["bug"]) assignee]
    ∧ "bug" ∈ (pySet (splitLabels labels ++ ["bug"])).map pyStrip := by
  constructor
  · simp only [createCmd, ha, hb]
    simp [applyTemplate, IssueType.val, TEMPLATES]
    split <;> rfl
  · exact List.mem_map.mpr ⟨"bug",
      List.mem_dedup.mpr (List.mem_append_right _ (List.mem_singleton.mpr rfl)),
      rfl⟩

/-- C3 witness: create(title="Login fails", type=bug, labels=None) invokes
the backend with title "[Bug] Login fails" and exactly the label "bug". -/
theorem create_bug_template_title_labels_witness :
    (createCmd env0 "Login fails" none none (some IssueType.bug) none none
        OutputFormat.json).calls
      = [authCall,
         ["issue", "create", "--title", "[Bug] Login fails", "--body", "",
          "--label", "bug"]]
    ∧ "bug" ∈ (pySet (splitLabels none ++ ["bug"])).map pyStrip := by
  obtain ⟨h1, h2⟩ :=
    create_bug_template_title_labels env0 "Login fails" "" none none none none
      OutputFormat.json (by decide) rfl
  exact ⟨h1.trans (by decide), h2⟩

/-- C4 counterexample: the edit no-changes notice is printed as fixed
human-readable text even when the caller selected the structured (json)
format, so the selected output format is not applied uniformly to every
response. -/
theorem edit_notice_ignores_selected_format :
    (editCmd env0 42 none none none none none none OutputFormat.json).outputs
      = [Rendered.notice "No changes specified."]
    ∧ ¬ uniform OutputFormat.json
        (editCmd env0 42 none none none none none none OutputFormat.json).outputs := by
  refine ⟨by decide, ?_⟩
  intro h
  obtain ⟨-, d, hd⟩ := h
  have he : (editCmd env0 42 none none none none none none OutputFormat.json).outputs
      = [Rendered.notice "No changes specified."] := by decide
  rw [he] at hd
  simp at hd

/-- C4 amended: every response of the modelled commands is uniform in the
selected output format (one structured document in json mode, none in
human mode, and never a record mixing error and success fields) — except
that the authentication-failure error and the edit no-changes notice are
emitted as fixed human-readable text regardless of the selected format. -/
theorem responses_uniform_except_fixed_notices (env : Env) (n : Int)
    (title reason : String)
    (body bf labels assignee titleOpt addL remL addA comment : Option String)
    (issueType : Option IssueType) (bs : Bool) (fmt : OutputFormat) :
    outputsOk fmt (createCmd env title body bf issueType labels assignee fmt)
    ∧ outputsOk fmt (closeCmd env n comment reason fmt)
    ∧ outputsOk fmt (reopenCmd env n comment fmt)
    ∧ outputsOk fmt (commentCmd env n body bf bs fmt)
    ∧ outputsOk fmt (editCmd env n titleOpt body bf addL remL addA fmt) :=
  ⟨createCmd_outputsOk env title body bf labels assignee issueType fmt,
   closeCmd_outputsOk env n comment reason fmt,
   reopenCmd_outputsOk env n comment fmt,
   commentCmd_outputsOk env n body bf bs fmt,
   editCmd_outputsOk env n titleOpt body bf addL remL addA fmt⟩

/-- C5: rendering the empty sequence in human mode yields exactly the
fixed "No results." notice and no table, while the same empty sequence in
structured mode yields the empty sequence document, not the notice. -/
theorem empty_sequence_rendering :
    output (.arr []) OutputFormat.human "" = [Rendered.notice "No results."]
    ∧ (output (.arr []) OutputFormat.human "").all (fun r => ! isTable r) = true
    ∧ output (.arr []) OutputFormat.json "" = [Rendered.doc (.arr [])]
    ∧ Rendered.doc (.arr []) ≠ Rendered.notice "No results." := by
  decide

/-- C6: edit with an issue number and no mutating option terminates as a
success-with-notice, exit status 0, with no backend issue-edit invocation
(the trace holds only the auth probe). -/
theorem edit_no_options_noop (env : Env) (n : Int) (fmt : OutputFormat)
    (ha : (env.backend authCall).returncode = 0) :
    editCmd env n none none none none none none fmt
      = ⟨0, [authCall], [Rendered.notice "No changes specified."]⟩ := by
  simp [editCmd, ha, editResolveBody, truthy, editArgs]

/-- C6 witness: edit(issue=42) with no other options is a notice with
exit 0 and only the auth probe in the trace. -/
theorem edit_no_options_noop_witness :
    editCmd env0 42 none none none none none none OutputFormat.human
      = ⟨0, [authCall], [Rendered.notice "No changes specified."]⟩ :=
  edit_no_options_noop env0 42 OutputFormat.human (by decide)

/-- C7: close and reopen with a comment invoke the backend comment step
before the close/reopen step; the whole outcome depends only on the
backend behaviour at the auth probe and the close/reopen invocation (so a
comment-step failure changes nothing), and the exit status is decided by
the close/reopen result alone. -/
theorem close_reopen_comment_first_best_effort (env env2 : Env) (n : Int)
    (c reason : String) (fmt : OutputFormat)
    (hc : c ≠ "")
    (ha : (env.backend authCall).returncode = 0)
    (ha2 : env2.backend authCall = env.backend authCall)
    (hcl : env2.backend (closeArgsFor n reason) = env.backend (closeArgsFor n reason))
    (hro : env2.backend (reopenArgsFor n) = env.backend (reopenArgsFor n)) :
    (closeCmd env n (some c) reason fmt).calls
      = [authCall, commentArgsFor n c, closeArgsFor n reason]
    ∧ closeCmd env2 n (some c) reason fmt = closeCmd env n (some c) reason fmt
    ∧ (closeCmd env n (some c) reason fmt).exitCode
        = (if (env.backend (closeArgsFor n reason)).returncode ≠ 0 then 1 else 0)
    ∧ (reopenCmd env n (some c) fmt).calls
      = [authCall, commentArgsFor n c, reopenArgsFor n]
    ∧ reopenCmd env2 n (some c) fmt = reopenCmd env n (some c) fmt
    ∧ (reopenCmd env n (some c) fmt).exitCode
        = (if (env.backend (reopenArgsFor n)).returncode ≠ 0 then 1 else 0) := by
  refine ⟨?_, ?_, ?_, ?_, ?_, ?_⟩
  · simp only [closeCmd, ha]
    simp [truthy, hc, optVal]
    split <;> rfl
  · simp only [closeCmd, ha, ha2, hcl]
  · simp only [closeCmd, ha]
    simp [truthy, hc, optVal]
    split <;> simp_all
  · simp only [reopenCmd, ha]
    simp [truthy, hc, optVal]
    split <;> rfl
  · simp only [reopenCmd, ha, ha2, hro]
  · simp only [reopenCmd, ha]
    simp [truthy, hc, optVal]
    split <;> simp_all

/-- C7 witness: against a backend rejecting exactly the comment step, the
close and reopen outcomes coincide with those against a fully accepting
backend; the trace posts the comment before closing, and close succeeds
with exit 0. -/
theorem close_reopen_comment_first_best_effort_witness :
    (closeCmd env0 5 (some "Fixed") "completed" OutputFormat.json).calls
      = [authCall, commentArgsFor 5 "Fixed", closeArgsFor 5 "completed"]
    ∧ closeCmd envCF 5 (some "Fixed") "completed" OutputFormat.json
        = closeCmd env0 5 (some "Fixed") "completed" OutputFormat.json
    ∧ (closeCmd env0 5 (some "Fixed") "completed" OutputFormat.json).exitCode = 0
    ∧ reopenCmd envCF 5 (some "Fixed") OutputFormat.json
        = reopenCmd env0 5 (some "Fixed") OutputFormat.json := by
  obtain ⟨h1, h2, h3, h4, h5, h6⟩ :=
    close_reopen_comment_first_best_effort env0 envCF 5 "Fixed" "completed"
      OutputFormat.json (by decide) (by decide) (by decide) (by decide) (by decide)
  exact ⟨h1, h2, h3.trans (by decide), h5⟩

/-- C8 counterexample: close with the unrecognized reason "wontfix" is not
rejected before the backend call; the raw text reaches the backend close
invocation and the command succeeds with exit 0 against an accepting
backend. -/
theorem close_reason_raw_counterexample :
    (closeCmd env0 42 none "wontfix" OutputFormat.json).calls
      = [authCall, ["issue", "close", "42", "--reason", "wontfix"]]
    ∧ (closeCmd env0 42 none "wontfix" OutputFormat.json).exitCode = 0
    ∧ (closeCmd env0 42 none "wontfix" OutputFormat.json).outputs
      = [Rendered.doc (.obj [("success", .b true), ("issue_number", .i 42),
                             ("reason", .s "wontfix")])] := by
  decide

/-- C8 amended: the reason option of close is plain text, not a closed
enumeration; whatever its value, it is forwarded verbatim to the backend
close invocation with no local validation. -/
theorem close_reason_forwarded_verbatim (env : Env) (n : Int)
    (comment : Option String) (reason : String) (fmt : OutputFormat)
    (ha : (env.backend authCall).returncode = 0) :
    (closeCmd env n comment reason fmt).calls
      = [authCall]
        ++ (if truthy comment then [commentArgsFor n (optVal comment)] else [])
        ++ [closeArgsFor n reason] := by
  simp only [closeCmd, ha]
  simp
  split <;> rfl

/-- C8 amended witness: the arbitrary reason "later" is forwarded verbatim. -/
theorem close_reason_forwarded_verbatim_witness :
    (closeCmd env0 8 none "later" OutputFormat.human).calls
      = [authCall]
        ++ (if truthy none then [commentArgsFor 8 (optVal none)] else [])
        ++ [closeArgsFor 8 "later"] :=
  close_reason_forwarded_verbatim env0 8 none "later" OutputFormat.human (by decide)

/-- C9: a comment invocation whose resolved body is empty (or absent) —
in particular when stdin yields an empty stream or the body file is an
existing empty file — fails with the no-body error, exits 1, performs no
backend comment invocation, and behaves exactly as if no body source had
been supplied at all. -/
theorem comment_empty_body_rejected (env : Env) (n : Int)
    (body bf : Option String) (bs : Bool) (fmt : OutputFormat)
    (ha : (env.backend authCall).returncode = 0)
    (hres : commentResolveBody env body bf bs = .ok none
          ∨ commentResolveBody env body bf bs = .ok (some "")) :
    commentCmd env n body bf bs fmt
      = ⟨1, [authCall], output (.obj [("error", .s noBodyMsg)]) fmt ""⟩
    ∧ commentCmd env n body bf bs fmt = commentCmd env n none none false fmt
    ∧ (env.stdin = "" → commentResolveBody env body bf true = .ok (some ""))
    ∧ (∀ p, p ≠ "" → env.fs p = some "" →
        commentResolveBody env body (some p) false = .ok (some "")) := by
  have hmain : commentCmd env n body bf bs fmt
      = ⟨1, [authCall], output (.obj [("error", .s noBodyMsg)]) fmt ""⟩ := by
    rcases hres with h | h <;>
      simp [commentCmd, ha, h, truthy]
  refine ⟨hmain, ?_, ?_, ?_⟩
  · rw [hmain]
    simp [commentCmd, ha, commentResolveBody, truthy]
  · intro hs
    simp [commentResolveBody, hs]
  · intro p hp hfs
    simp [commentResolveBody, truthy, hp, optVal, hfs]

/-- C9 witness: an empty stdin stream (even with inline body and a file
path also supplied) and an existing empty body file both produce the
no-body error record with exit 1 and no backend comment call. -/
theorem comment_empty_body_rejected_witness :
    commentCmd env0 3 (some "inline") (some "ghost.md") true OutputFormat.json
      = ⟨1, [authCall], [Rendered.doc (.obj [("error", .s noBodyMsg)])]⟩
    ∧ commentCmd envW 3 (some "inline") (some "empty.md") false OutputFormat.json
      = ⟨1, [authCall], [Rendered.doc (.obj [("error", .s noBodyMsg)])]⟩ := by
  obtain ⟨h1, -, -, -⟩ :=
    comment_empty_body_rejected env0 3 (some "inline") (some "ghost.md") true
      OutputFormat.json (by decide) (Or.inr rfl)
  obtain ⟨h2, -, -, -⟩ :=
    comment_empty_body_rejected envW 3 (some "inline") (some "empty.md") false
      OutputFormat.json (by decide) (Or.inr rfl)
  exact ⟨h1, h2⟩

/-- C10: an edit invocation whose only mutating option is a body that
resolves to the empty string (an empty inline body, or an existing empty
body file even with a non-empty inline body) takes the no-changes path:
exit 0, only the auth probe in the trace, no backend edit invocation —
so the issue body cannot be cleared through this tool. -/
theorem edit_empty_body_noop (env : Env) (n : Int) (fmt : OutputFormat)
    (ha : (env.backend authCall).returncode = 0) :
    editCmd env n none (some "") none none none none fmt
      = ⟨0, [authCall], [Rendered.notice "No changes specified."]⟩
    ∧ (∀ p body, p ≠ "" → env.fs p = some "" →
        editCmd env n none body (some p) none none none fmt
          = ⟨0, [authCall], [Rendered.notice "No changes specified."]⟩) := by
  constructor
  · simp [editCmd, ha, editResolveBody, truthy, editArgs]
  · intro p body hp hfs
    simp [editCmd, ha, editResolveBody, truthy, hp, optVal, hfs, editArgs]

/-- C10 witness: an empty inline body, and an existing empty body file
overriding a non-empty inline body, both take the no-changes path with
exit 0 and only the auth probe in the trace. -/
theorem edit_empty_body_noop_witness :
    editCmd envW 11 none (some "") none none none none OutputFormat.json
      = ⟨0, [authCall], [Rendered.notice "No changes specified."]⟩
    ∧ editCmd envW 11 none (some "new body") (some "empty.md") none none none
        OutputFormat.json
      = ⟨0, [authCall], [Rendered.notice "No changes specified."]⟩ := by
  obtain ⟨h1, h2⟩ :=
    edit_empty_body_noop envW 11 OutputFormat.json (by decide)
  exact ⟨h1, h2 "empty.md" (some "new body") (by decide) (by decide)⟩
